import Mathlib

/-!
Verification of the installment-calculator resolver (src/app/page.tsx).

Shallow embedding conventions:
* A text-input value is modelled as `Option ℚ`: `none` is the empty string
  (falsy in JS), `some q` is a non-empty numeric string whose parsed value
  is `q` (note `"0"` is a *truthy* string parsing to `0`, hence `some 0`).
* JS numbers are modelled as exact rationals `ℚ`; `toFixed` and
  `Math.round` become exact decimal roundings on `ℚ`.
* The component state (four field strings, the focus tag, the
  `calculatedField` marker, the error message and the results object) is a
  `CalcState`; one run of `validateAndCalculate` is a pure function
  `CalcState → CalcState`.
* The error string is abstracted to the `CalcError` tag it carries
  (`shortfall` keeps the rounded amount interpolated into the message).
-/

namespace InstallmentCalc

/-- Fixed monthly profit rate; page.tsx line 24: `MONTHLY_PROFIT_RATE = 0.033`
(the adjacent comment in the source says "3.5% monthly" but the constant
is 0.033). -/
def MONTHLY_PROFIT_RATE : ℚ := 33 / 1000

/-- Model of `parseNumber` composed with the call-site guards
(`purchasePrice || "0"`, `downPayment === "" ? "0" : downPayment`, ...):
an empty field parses to 0, a filled field to its numeric value. -/
def parseNumber (v : Option ℚ) : ℚ := v.getD 0

/-- page.tsx lines 34-43: installment from price, down payment, period. -/
def calculateInstallment (price down period : ℚ) : ℚ :=
  let remainingAmount := price - down
  let totalWithProfit := remainingAmount * (1 + MONTHLY_PROFIT_RATE * period)
  totalWithProfit / period

/-- page.tsx lines 45-53: down payment from price, installment, period. -/
def calculateDownPayment (price installment period : ℚ) : ℚ :=
  let totalInstallments := installment * period
  let totalWithoutDown := price * (1 + MONTHLY_PROFIT_RATE * period)
  totalWithoutDown - totalInstallments

/-- page.tsx lines 55-67: period from price, down payment, installment;
returns 0 when the linear-equation denominator is non-positive. -/
def calculatePeriod (price down installment : ℚ) : ℚ :=
  let remainingAmount := price - down
  let denominator := installment - remainingAmount * MONTHLY_PROFIT_RATE
  if denominator ≤ 0 then 0 else remainingAmount / denominator

/-- JS `Math.round`: round half toward positive infinity. -/
def jsRound (q : ℚ) : ℤ := ⌊q + 1 / 2⌋

/-- JS `Number.prototype.toFixed(2)` followed by re-parsing the stored
string: the value rounded to two decimal places. -/
def toFixed2 (q : ℚ) : ℚ := (jsRound (q * 100) : ℚ) / 100

/-- JS `Number.prototype.toFixed(0)` followed by re-parsing the stored
string: the value rounded to an integer. -/
def toFixed0 (q : ℚ) : ℚ := (jsRound q : ℚ)

/-- Which field the `isFocus` state names (page.tsx line 15; `none`
models the empty string set on blur). -/
inductive FocusTag where
  | price
  | down
  | period
  | installment
deriving DecidableEq

/-- The three secondary fields, as stored in `calculatedField`
(page.tsx line 16). -/
inductive SecField where
  | down
  | period
  | installment
deriving DecidableEq

/-- The focus tag naming a secondary field. -/
def secToFocus : SecField → FocusTag
  | SecField.down => FocusTag.down
  | SecField.period => FocusTag.period
  | SecField.installment => FocusTag.installment

/-- The `results` state object (page.tsx lines 18-22). -/
structure Results where
  totalWithProfit : ℚ
  totalPaid : ℚ
  missingAmount : ℚ
deriving DecidableEq

/-- Abstraction of the `error` message string: which of the three error
messages is displayed; `shortfall` carries `Math.round(missingAmount)`,
the number interpolated into the message. `none` (in `Option CalcError`)
is the empty string set by `setError("")`. -/
inductive CalcError where
  | missingPrice
  | insufficientInputs
  | shortfall (amount : ℤ)
deriving DecidableEq

/-- The component state of `InstallmentCalculator` (page.tsx lines 11-22). -/
structure CalcState where
  purchasePrice : Option ℚ
  downPayment : Option ℚ
  repaymentPeriod : Option ℚ
  monthlyInstallment : Option ℚ
  isFocus : Option FocusTag
  calculatedField : Option SecField
  error : Option CalcError
  results : Option Results
deriving DecidableEq

/-- page.tsx lines 81-85: how many of the three secondary field strings
are truthy (non-empty). -/
def secondaryFilledCount (s : CalcState) : ℕ :=
  (if s.downPayment.isSome then 1 else 0) +
  (if s.repaymentPeriod.isSome then 1 else 0) +
  (if s.monthlyInstallment.isSome then 1 else 0)

/-- page.tsx lines 101-128: which branch of the first (fill-driven)
derivation chain fires, i.e. which field that chain derives. -/
def firstChainBranch (s : CalcState) : Option SecField :=
  if s.downPayment.isSome ∧ s.repaymentPeriod.isSome ∧
      s.monthlyInstallment = none ∧ s.isFocus ≠ some FocusTag.installment then
    some SecField.installment
  else if s.monthlyInstallment.isSome ∧ s.repaymentPeriod.isSome ∧
      s.downPayment = none ∧ s.isFocus ≠ some FocusTag.down then
    some SecField.down
  else if s.downPayment.isSome ∧ s.monthlyInstallment.isSome ∧
      s.repaymentPeriod = none ∧ s.isFocus ≠ some FocusTag.period then
    some SecField.period
  else
    none

/-- page.tsx lines 95-135: the local `finalDown, finalPeriod,
finalInstallment` trio after the first derivation chain (full precision,
before any `toFixed` truncation of the stored strings). -/
def finalTrio (s : CalcState) : ℚ × ℚ × ℚ :=
  let price := parseNumber s.purchasePrice
  let down := parseNumber s.downPayment
  let period := parseNumber s.repaymentPeriod
  let installment := parseNumber s.monthlyInstallment
  match firstChainBranch s with
  | some SecField.installment => (down, period, calculateInstallment price down period)
  | some SecField.down => (calculateDownPayment price installment period, period, installment)
  | some SecField.period => (down, calculatePeriod price down installment, installment)
  | none => (down, period, installment)

/-- page.tsx lines 101-128: the field writes of the first derivation
chain (`setMonthlyInstallment(v.toFixed(2))` and friends). -/
def applyFirstChain (s : CalcState) : CalcState :=
  let price := parseNumber s.purchasePrice
  let down := parseNumber s.downPayment
  let period := parseNumber s.repaymentPeriod
  let installment := parseNumber s.monthlyInstallment
  match firstChainBranch s with
  | some SecField.installment =>
      { s with monthlyInstallment := some (toFixed2 (calculateInstallment price down period)) }
  | some SecField.down =>
      { s with downPayment := some (toFixed2 (calculateDownPayment price installment period)) }
  | some SecField.period =>
      { s with repaymentPeriod := some (toFixed0 (calculatePeriod price down installment)) }
  | none => s

/-- page.tsx lines 143-159: the second, focus-driven chain, run after the
totals are computed; it reads the locals parsed from the ORIGINAL state
`orig` (lines 70-73) and overwrites fields of the running state `s`.
Its assignments to `newCalculatedField` are dead (`setCalculatedField`
already ran at line 130) and are not modelled. -/
def applySecondChain (orig s : CalcState) : CalcState :=
  let price := parseNumber orig.purchasePrice
  let down := parseNumber orig.downPayment
  let period := parseNumber orig.repaymentPeriod
  let installment := parseNumber orig.monthlyInstallment
  match orig.isFocus with
  | some FocusTag.period =>
      { s with monthlyInstallment := some (toFixed2 (calculateInstallment price down period)) }
  | some FocusTag.installment =>
      { s with repaymentPeriod := some (toFixed0 (calculatePeriod price down installment)) }
  | some FocusTag.down =>
      { s with monthlyInstallment := some (toFixed2 (calculateInstallment price down period)) }
  | some FocusTag.price =>
      { s with monthlyInstallment := some (toFixed2 (calculateInstallment price down period)) }
  | none => s

/-- page.tsx lines 69-177: one run of `validateAndCalculate`, as a pure
state transformer. The totals are computed from the post-first-chain
trio (lines 133-141), before the second chain runs (lines 143-159);
`setResults` and the shortfall check are lines 161-176. -/
def validateAndCalculate (s : CalcState) : CalcState :=
  let price := parseNumber s.purchasePrice
  if price ≤ 0 then
    { s with error := some CalcError.missingPrice, results := none }
  else if secondaryFilledCount s < 2 then
    { s with error := some CalcError.insufficientInputs, results := none }
  else
    let t := finalTrio s
    let totalWithProfit := price + (price - t.1) * MONTHLY_PROFIT_RATE * t.2.1
    let totalPaid := t.1 + t.2.2 * t.2.1
    let missingAmount := totalWithProfit - totalPaid
    let s1 := { applyFirstChain s with calculatedField := firstChainBranch s }
    let s2 := applySecondChain s s1
    { s2 with
      results := some ⟨totalWithProfit, totalPaid, missingAmount⟩,
      error := if 1 < missingAmount then some (CalcError.shortfall (jsRound missingAmount)) else none }

/-- page.tsx lines 179-183: the dependency-less effect that replaces an
empty down-payment string by `"0"` (a truthy string parsing to 0). -/
def downPaymentFillEffect (s : CalcState) : CalcState :=
  if s.downPayment = none then { s with downPayment := some 0 } else s

/-- Modelled from the spec: the sufficiency-check totals, written from
the words of section 4 ("totalWithProfit = price + (price - down) * r *
period"), to be compared with what the code stores in `results`. -/
def spec_totalWithProfit (price down period : ℚ) : ℚ :=
  price + (price - down) * MONTHLY_PROFIT_RATE * period

/-- Modelled from the spec: "totalPaid = down + installment * period". -/
def spec_totalPaid (down installment period : ℚ) : ℚ :=
  down + installment * period

/-- Field lookup by focus tag, to state frame properties about the
focused field. -/
def getField (s : CalcState) : FocusTag → Option ℚ
  | FocusTag.price => s.purchasePrice
  | FocusTag.down => s.downPayment
  | FocusTag.period => s.repaymentPeriod
  | FocusTag.installment => s.monthlyInstallment

/-- C1: for price > 0, down ≥ 0, period > 0 the derived installment
satisfies the installment formula exactly:
`calculateInstallment(price, down, period) * period =
 (price - down) * (1 + r * period)`. -/
theorem c1_installment_formula (price down period : ℚ)
    (hprice : 0 < price) (hdown : 0 ≤ down) (hperiod : 0 < period) :
    calculateInstallment price down period * period =
      (price - down) * (1 + MONTHLY_PROFIT_RATE * period) := by
  simp only [calculateInstallment]
  exact div_mul_cancel₀ _ (ne_of_gt hperiod)

/-- Witness for C1 at price 10000, down 2000, period 12. -/
theorem c1_installment_formula_witness :
    (0 : ℚ) < 10000 ∧ (0 : ℚ) ≤ 2000 ∧ (0 : ℚ) < 12 ∧
      calculateInstallment 10000 2000 12 * 12 =
        (10000 - 2000) * (1 + MONTHLY_PROFIT_RATE * 12) :=
  ⟨by norm_num, by norm_num, by norm_num,
    c1_installment_formula 10000 2000 12 (by norm_num) (by norm_num) (by norm_num)⟩

/-- C9 (code bug): the source comment documents the rate as "3.5%
monthly" and the spec example expects r = 0.035 and installment ≈ 947.67,
but the code constant is 0.033, so at price 10000, down 2000, period 12
the code derives 2792/3 ≈ 930.67, not ≈ 947.67. -/
theorem c9_rate_mismatch :
    MONTHLY_PROFIT_RATE = 33 / 1000 ∧
      calculateInstallment 10000 2000 12 = 2792 / 3 ∧
      1 < 94767 / 100 - calculateInstallment 10000 2000 12 := by
  refine ⟨rfl, by norm_num [calculateInstallment, MONTHLY_PROFIT_RATE], ?_⟩
  norm_num [calculateInstallment, MONTHLY_PROFIT_RATE]

/-- Counterexample to C2: at price 10000, installment 1000, period 12 the
period-derivation denominator is positive, yet
`calculatePeriod(price, calculateDownPayment(price, installment, period),
installment)` is 201000/18367 ≈ 10.94, more than a whole unit away from
the original period 12 — far beyond floating-point tolerance. -/
theorem c2_roundtrip_counterexample :
    0 < 1000 - (10000 - calculateDownPayment 10000 1000 12) * MONTHLY_PROFIT_RATE ∧
      calculatePeriod 10000 (calculateDownPayment 10000 1000 12) 1000 = 201000 / 18367 ∧
      1 < 12 - calculatePeriod 10000 (calculateDownPayment 10000 1000 12) 1000 := by
  norm_num [calculatePeriod, calculateDownPayment, MONTHLY_PROFIT_RATE]

/-- C2 as amended: the down→period round-trip holds (exactly) only in
the degenerate case where the derived down payment is zero, i.e.
`installment * period = price * (1 + r * period)`; then, when the
denominator is positive, re-deriving the period returns the original. -/
theorem c2_roundtrip_amended (price installment period : ℚ)
    (hden : 0 < installment -
      (price - calculateDownPayment price installment period) * MONTHLY_PROFIT_RATE)
    (hzero : calculateDownPayment price installment period = 0) :
    calculatePeriod price (calculateDownPayment price installment period) installment =
      period := by
  rw [hzero] at hden ⊢
  simp only [calculateDownPayment] at hzero
  simp only [calculatePeriod, sub_zero] at hden ⊢
  rw [if_neg (not_le.mpr hden)]
  rw [div_eq_iff (ne_of_gt hden)]
  linear_combination hzero

/-- Witness for the amended C2 at price 1000, installment 133, period 10
(there the derived down payment is exactly 0 and the denominator is 100). -/
theorem c2_roundtrip_amended_witness :
    (0 < 133 - (1000 - calculateDownPayment 1000 133 10) * MONTHLY_PROFIT_RATE ∧
        calculateDownPayment 1000 133 10 = 0) ∧
      calculatePeriod 1000 (calculateDownPayment 1000 133 10) 133 = 10 := by
  have h1 : 0 < 133 - ((1000 : ℚ) - calculateDownPayment 1000 133 10) * MONTHLY_PROFIT_RATE := by
    norm_num [calculateDownPayment, MONTHLY_PROFIT_RATE]
  have h2 : calculateDownPayment 1000 133 10 = 0 := by
    norm_num [calculateDownPayment, MONTHLY_PROFIT_RATE]
  exact ⟨⟨h1, h2⟩, c2_roundtrip_amended 1000 133 10 h1 h2⟩

/-- Counterexample to C6: the infeasible sentinel of `calculatePeriod` is
the plain number 0, which coincides with a feasible-path result: with
price 100, down 0, installment 1 the denominator is non-positive and the
function returns 0, and with price 100, down 100, installment 5 the
denominator is positive (a computable configuration) and the function
also returns 0 — the two outcomes are not distinguishable. -/
theorem c6_sentinel_counterexample :
    ((1 : ℚ) - (100 - 0) * MONTHLY_PROFIT_RATE ≤ 0 ∧ calculatePeriod 100 0 1 = 0) ∧
      (0 < (5 : ℚ) - (100 - 100) * MONTHLY_PROFIT_RATE ∧ calculatePeriod 100 100 5 = 0) := by
  norm_num [calculatePeriod, MONTHLY_PROFIT_RATE]

/-- C6 as amended: whenever the denominator
`installment - (price - down) * r` is non-positive, `calculatePeriod`
returns the numeric sentinel 0 rather than a distinct error state; the
sentinel is distinguishable from strictly feasible results (positive
remaining amount and positive denominator give a positive period) but
not from the feasible zero-remaining result. -/
theorem c6_sentinel_amended (price down installment : ℚ)
    (h : installment - (price - down) * MONTHLY_PROFIT_RATE ≤ 0) :
    calculatePeriod price down installment = 0 := by
  simp only [calculatePeriod]
  rw [if_pos h]

/-- Witness for the amended C6 at price 100, down 0, installment 1. -/
theorem c6_sentinel_amended_witness :
    (1 : ℚ) - ((100 : ℚ) - 0) * MONTHLY_PROFIT_RATE ≤ 0 ∧ calculatePeriod 100 0 1 = 0 := by
  have h : (1 : ℚ) - ((100 : ℚ) - 0) * MONTHLY_PROFIT_RATE ≤ 0 := by
    norm_num [MONTHLY_PROFIT_RATE]
  exact ⟨h, c6_sentinel_amended 100 0 1 h⟩

/-- Helper: the fill-driven chain never derives the field named by the
focus tag, by the `isFocus !==` guard on each branch. -/
lemma firstChainBranch_not_focused (s : CalcState) (g : SecField)
    (h : firstChainBranch s = some g) : s.isFocus ≠ some (secToFocus g) := by
  unfold firstChainBranch at h
  split_ifs at h with h1 h2 h3
  · cases Option.some.inj h; exact h1.2.2.2
  · cases Option.some.inj h; exact h2.2.2.2
  · cases Option.some.inj h; exact h3.2.2.2

/-- Helper: writing `results` and `error` does not change the four input
fields. -/
lemma getField_set_results_error (s : CalcState) (r : Option Results)
    (e : Option CalcError) (f : FocusTag) :
    getField { s with results := r, error := e } f = getField s f := by
  cases f <;> rfl

/-- Helper: writing `calculatedField` does not change the four input
fields. -/
lemma getField_set_calculated (s : CalcState) (c : Option SecField) (f : FocusTag) :
    getField { s with calculatedField := c } f = getField s f := by
  cases f <;> rfl

/-- Helper: the fill-driven chain leaves the focused field untouched. -/
lemma getField_applyFirstChain (s : CalcState) (f : FocusTag) (h : s.isFocus = some f) :
    getField (applyFirstChain s) f = getField s f := by
  unfold applyFirstChain
  cases hb : firstChainBranch s with
  | none => rfl
  | some g =>
    have hne := firstChainBranch_not_focused s g hb
    rw [h] at hne
    have hgf : secToFocus g ≠ f := fun he => hne (by rw [he])
    cases g <;> cases f <;> first
      | rfl
      | exact absurd rfl hgf

/-- Helper: the focus-driven chain leaves the focused field untouched
(each arm writes a field other than the one matched on). -/
lemma getField_applySecondChain (orig s : CalcState) (f : FocusTag)
    (h : orig.isFocus = some f) :
    getField (applySecondChain orig s) f = getField s f := by
  unfold applySecondChain
  rw [h]
  cases f <;> rfl

/-- C5: the focused field is never overwritten by an evaluation pass
(its value is preserved), and the field the fill-driven chain derives —
the one marked `calculatedField` — is never the focused field. -/
theorem c5_focus_never_overwritten (s : CalcState) (f : FocusTag)
    (h : s.isFocus = some f) :
    getField (validateAndCalculate s) f = getField s f ∧
      Option.map secToFocus (firstChainBranch s) ≠ some f := by
  constructor
  · simp only [validateAndCalculate]
    split_ifs with h1 h2 h3
    · cases f <;> rfl
    · cases f <;> rfl
    · rw [getField_set_results_error, getField_applySecondChain s _ f h,
        getField_set_calculated, getField_applyFirstChain s f h]
    · rw [getField_set_results_error, getField_applySecondChain s _ f h,
        getField_set_calculated, getField_applyFirstChain s f h]
  · cases hb : firstChainBranch s with
    | none => simp
    | some g =>
      intro hc
      have h2 : secToFocus g = f := Option.some.inj (by simpa using hc)
      exact firstChainBranch_not_focused s g hb (by rw [h, ← h2])

/-- Witness for C5: a fully-filled state focused on the down-payment
field keeps that field's value through the pass. -/
theorem c5_focus_never_overwritten_witness :
    (⟨some 1000, some 0, some 10, some 50, some FocusTag.down, none, none, none⟩ :
        CalcState).isFocus = some FocusTag.down ∧
      (getField
          (validateAndCalculate
            ⟨some 1000, some 0, some 10, some 50, some FocusTag.down, none, none, none⟩)
          FocusTag.down =
        getField
          (⟨some 1000, some 0, some 10, some 50, some FocusTag.down, none, none, none⟩ :
            CalcState) FocusTag.down ∧
       Option.map secToFocus
          (firstChainBranch
            ⟨some 1000, some 0, some 10, some 50, some FocusTag.down, none, none, none⟩) ≠
        some FocusTag.down) :=
  ⟨rfl, c5_focus_never_overwritten _ FocusTag.down rfl⟩

/-- Counterexample to C4: with all three secondary fields filled
(price 1000, down 0, period 10, installment 50) but focus on the period
field, the pass overwrites the installment field with the re-derived
value 133, so the four values are NOT left unchanged. -/
theorem c4_frame_counterexample :
    ((⟨some 1000, some 0, some 10, some 50, some FocusTag.period, none, none, none⟩ :
        CalcState).downPayment.isSome ∧
      (⟨some 1000, some 0, some 10, some 50, some FocusTag.period, none, none, none⟩ :
        CalcState).repaymentPeriod.isSome ∧
      (⟨some 1000, some 0, some 10, some 50, some FocusTag.period, none, none, none⟩ :
        CalcState).monthlyInstallment.isSome) ∧
      (validateAndCalculate
          ⟨some 1000, some 0, some 10, some 50, some FocusTag.period, none, none, none⟩).monthlyInstallment ≠
        (⟨some 1000, some 0, some 10, some 50, some FocusTag.period, none, none, none⟩ :
          CalcState).monthlyInstallment := by
  refine ⟨⟨rfl, rfl, rfl⟩, ?_⟩
  have heval : (validateAndCalculate
      ⟨some 1000, some 0, some 10, some 50, some FocusTag.period, none, none,
        none⟩).monthlyInstallment = some 133 := by
    norm_num [validateAndCalculate, firstChainBranch, finalTrio, applyFirstChain,
      applySecondChain, parseNumber, secondaryFilledCount, calculateInstallment,
      toFixed2, jsRound, MONTHLY_PROFIT_RATE]
  rw [heval]
  norm_num

/-- C4 as amended: when all three secondary fields are filled AND no
field holds focus, the pass derives nothing (the fill-driven chain takes
no branch) and all four field values are left unchanged; it only
performs the sufficiency check. -/
theorem c4_frame_amended (s : CalcState)
    (h1 : s.downPayment.isSome) (h2 : s.repaymentPeriod.isSome)
    (h3 : s.monthlyInstallment.isSome) (h4 : s.isFocus = none) :
    (validateAndCalculate s).purchasePrice = s.purchasePrice ∧
      (validateAndCalculate s).downPayment = s.downPayment ∧
      (validateAndCalculate s).repaymentPeriod = s.repaymentPeriod ∧
      (validateAndCalculate s).monthlyInstallment = s.monthlyInstallment ∧
      firstChainBranch s = none := by
  obtain ⟨d, hd⟩ := Option.isSome_iff_exists.mp h1
  obtain ⟨p, hp⟩ := Option.isSome_iff_exists.mp h2
  obtain ⟨i, hi⟩ := Option.isSome_iff_exists.mp h3
  have hb : firstChainBranch s = none := by
    simp [firstChainBranch, hd, hp, hi]
  simp only [validateAndCalculate]
  split_ifs with ha hc hm
  · exact ⟨rfl, rfl, rfl, rfl, hb⟩
  · exact ⟨rfl, rfl, rfl, rfl, hb⟩
  all_goals simp [applyFirstChain, applySecondChain, hb, h4]

/-- Witness for the amended C4 at a fully-filled, unfocused state. -/
theorem c4_frame_amended_witness :
    ((⟨some 1000, some 0, some 10, some 133, none, none, none, none⟩ :
        CalcState).downPayment.isSome ∧
      (⟨some 1000, some 0, some 10, some 133, none, none, none, none⟩ :
        CalcState).repaymentPeriod.isSome ∧
      (⟨some 1000, some 0, some 10, some 133, none, none, none, none⟩ :
        CalcState).monthlyInstallment.isSome ∧
      (⟨some 1000, some 0, some 10, some 133, none, none, none, none⟩ :
        CalcState).isFocus = none) ∧
      ((validateAndCalculate
          ⟨some 1000, some 0, some 10, some 133, none, none, none, none⟩).purchasePrice =
        some 1000 ∧
       (validateAndCalculate
          ⟨some 1000, some 0, some 10, some 133, none, none, none, none⟩).monthlyInstallment =
        some 133) := by
  have h := c4_frame_amended
    ⟨some 1000, some 0, some 10, some 133, none, none, none, none⟩
    rfl rfl rfl rfl
  exact ⟨⟨rfl, rfl, rfl, rfl⟩, h.1, h.2.2.2.1⟩

/-- C7: with the price field empty or holding a non-positive value, the
pass reports `MissingPrice`, clears the results, and leaves all four
field values unchanged. -/
theorem c7_missing_price (s : CalcState)
    (h : s.purchasePrice = none ∨ ∃ q, s.purchasePrice = some q ∧ q ≤ 0) :
    (validateAndCalculate s).error = some CalcError.missingPrice ∧
      (validateAndCalculate s).results = none ∧
      (validateAndCalculate s).purchasePrice = s.purchasePrice ∧
      (validateAndCalculate s).downPayment = s.downPayment ∧
      (validateAndCalculate s).repaymentPeriod = s.repaymentPeriod ∧
      (validateAndCalculate s).monthlyInstallment = s.monthlyInstallment := by
  have hp : parseNumber s.purchasePrice ≤ 0 := by
    rcases h with h | ⟨q, hq, hle⟩
    · simp [parseNumber, h]
    · simp [parseNumber, hq, hle]
  simp only [validateAndCalculate]
  rw [if_pos hp]
  exact ⟨rfl, rfl, rfl, rfl, rfl, rfl⟩

/-- Witness for C7 at the empty initial state. -/
theorem c7_missing_price_witness :
    ((⟨none, none, none, none, none, none, none, none⟩ : CalcState).purchasePrice = none ∨
      ∃ q, (⟨none, none, none, none, none, none, none, none⟩ :
        CalcState).purchasePrice = some q ∧ q ≤ 0) ∧
      ((validateAndCalculate ⟨none, none, none, none, none, none, none, none⟩).error =
        some CalcError.missingPrice ∧
       (validateAndCalculate ⟨none, none, none, none, none, none, none, none⟩).results =
        none) := by
  have h := c7_missing_price ⟨none, none, none, none, none, none, none, none⟩ (Or.inl rfl)
  exact ⟨Or.inl rfl, h.1, h.2.1⟩

/-- C8: with a valid price but at most one secondary field filled, the
pass reports `InsufficientInputs` (the message naming the two-of-three
requirement), clears the results, and leaves all four field values
unchanged. -/
theorem c8_insufficient_inputs (s : CalcState)
    (hp : 0 < parseNumber s.purchasePrice) (hc : secondaryFilledCount s ≤ 1) :
    (validateAndCalculate s).error = some CalcError.insufficientInputs ∧
      (validateAndCalculate s).results = none ∧
      (validateAndCalculate s).purchasePrice = s.purchasePrice ∧
      (validateAndCalculate s).downPayment = s.downPayment ∧
      (validateAndCalculate s).repaymentPeriod = s.repaymentPeriod ∧
      (validateAndCalculate s).monthlyInstallment = s.monthlyInstallment := by
  simp only [validateAndCalculate]
  rw [if_neg (not_le.mpr hp), if_pos (by omega : secondaryFilledCount s < 2)]
  exact ⟨rfl, rfl, rfl, rfl, rfl, rfl⟩

/-- Witness for C8: a priced state with only the period filled. -/
theorem c8_insufficient_inputs_witness :
    (0 < parseNumber (⟨some 100, none, some 10, none, none, none, none, none⟩ :
        CalcState).purchasePrice ∧
      secondaryFilledCount
        (⟨some 100, none, some 10, none, none, none, none, none⟩ : CalcState) ≤ 1) ∧
      ((validateAndCalculate ⟨some 100, none, some 10, none, none, none, none, none⟩).error =
        some CalcError.insufficientInputs ∧
       (validateAndCalculate
          ⟨some 100, none, some 10, none, none, none, none, none⟩).results = none) := by
  have h := c8_insufficient_inputs
    ⟨some 100, none, some 10, none, none, none, none, none⟩
    (by norm_num [parseNumber]) (by decide)
  exact ⟨⟨by norm_num [parseNumber], by decide⟩, h.1, h.2.1⟩

/-- C3: whenever the pass reaches the sufficiency check (positive price,
at least two secondary fields filled), the stored report is exactly the
spec totals computed from the post-derivation trio, and the error is the
shortfall message with the rounded amount precisely when the shortfall
exceeds the tolerance 1, otherwise no error — with the totals surfaced
in both cases. -/
theorem c3_sufficiency_report (s : CalcState)
    (hp : 0 < parseNumber s.purchasePrice) (hf : 2 ≤ secondaryFilledCount s) :
    (validateAndCalculate s).results =
      some ⟨spec_totalWithProfit (parseNumber s.purchasePrice) (finalTrio s).1 (finalTrio s).2.1,
            spec_totalPaid (finalTrio s).1 (finalTrio s).2.2 (finalTrio s).2.1,
            spec_totalWithProfit (parseNumber s.purchasePrice) (finalTrio s).1 (finalTrio s).2.1 -
              spec_totalPaid (finalTrio s).1 (finalTrio s).2.2 (finalTrio s).2.1⟩ ∧
      (1 < spec_totalWithProfit (parseNumber s.purchasePrice) (finalTrio s).1 (finalTrio s).2.1 -
            spec_totalPaid (finalTrio s).1 (finalTrio s).2.2 (finalTrio s).2.1 →
        (validateAndCalculate s).error =
          some (CalcError.shortfall
            (jsRound
              (spec_totalWithProfit (parseNumber s.purchasePrice) (finalTrio s).1 (finalTrio s).2.1 -
                spec_totalPaid (finalTrio s).1 (finalTrio s).2.2 (finalTrio s).2.1)))) ∧
      (spec_totalWithProfit (parseNumber s.purchasePrice) (finalTrio s).1 (finalTrio s).2.1 -
          spec_totalPaid (finalTrio s).1 (finalTrio s).2.2 (finalTrio s).2.1 ≤ 1 →
        (validateAndCalculate s).error = none) := by
  simp only [validateAndCalculate, spec_totalWithProfit, spec_totalPaid]
  rw [if_neg (not_le.mpr hp), if_neg (not_lt.mpr hf)]
  refine ⟨rfl, fun hlt => ?_, fun hle => ?_⟩
  · show (if 1 < _ then _ else _) = _
    rw [if_pos hlt]
  · show (if 1 < _ then _ else _) = _
    rw [if_neg (not_lt.mpr hle)]

/-- Witness for C3: price 1000, down 0, period 10, installment 133 gives
totals 1330 and 1330 with shortfall 0, hence no error. -/
theorem c3_sufficiency_report_witness :
    (0 < parseNumber (⟨some 1000, some 0, some 10, some 133, none, none, none, none⟩ :
        CalcState).purchasePrice ∧
      2 ≤ secondaryFilledCount
        (⟨some 1000, some 0, some 10, some 133, none, none, none, none⟩ : CalcState)) ∧
      ((validateAndCalculate
          ⟨some 1000, some 0, some 10, some 133, none, none, none, none⟩).results =
        some ⟨1330, 1330, 0⟩ ∧
       (validateAndCalculate
          ⟨some 1000, some 0, some 10, some 133, none, none, none, none⟩).error = none) := by
  have h := c3_sufficiency_report
    ⟨some 1000, some 0, some 10, some 133, none, none, none, none⟩
    (by norm_num [parseNumber]) (by decide)
  have hb : firstChainBranch
      ⟨some 1000, some 0, some 10, some 133, none, none, none, none⟩ = none := by
    decide
  refine ⟨⟨by norm_num [parseNumber], by decide⟩, ?_, ?_⟩
  · rw [h.1]
    norm_num [finalTrio, hb, parseNumber, spec_totalWithProfit,
      spec_totalPaid, MONTHLY_PROFIT_RATE]
  · apply h.2.2
    norm_num [finalTrio, hb, parseNumber, spec_totalWithProfit,
      spec_totalPaid, MONTHLY_PROFIT_RATE]

/-- Helper: with a filled (truthy) down-payment string, the fill-driven
chain cannot take the down-payment branch, which requires the field to
be empty. -/
lemma firstChainBranch_ne_down (s : CalcState) (h : s.downPayment ≠ none) :
    firstChainBranch s ≠ some SecField.down := by
  unfold firstChainBranch
  split_ifs with h1 h2 h3
  · simp
  · exact absurd h2.2.2.1 h
  · simp
  · simp

/-- Helper: the focus-driven chain never writes the down-payment field. -/
lemma getField_down_applySecondChain (orig s : CalcState) :
    getField (applySecondChain orig s) FocusTag.down = getField s FocusTag.down := by
  unfold applySecondChain
  cases orig.isFocus with
  | none => rfl
  | some f => cases f <;> rfl

/-- Helper: unless the fill-driven chain takes the down-payment branch,
it does not write the down-payment field. -/
lemma getField_down_applyFirstChain (s : CalcState)
    (h : firstChainBranch s ≠ some SecField.down) :
    getField (applyFirstChain s) FocusTag.down = getField s FocusTag.down := by
  unfold applyFirstChain
  cases hb : firstChainBranch s with
  | none => rfl
  | some g =>
    cases g with
    | down => exact absurd hb h
    | period => rfl
    | installment => rfl

/-- C10: after the empty-string normalization effect the down-payment
field is always filled, so the fill-driven chain never takes the branch
that calls `calculateDownPayment` (its only call site), and the pass
leaves the down-payment field's value unchanged — the field is never
auto-derived. -/
theorem c10_down_never_derived (s : CalcState) :
    firstChainBranch (downPaymentFillEffect s) ≠ some SecField.down ∧
      (validateAndCalculate (downPaymentFillEffect s)).downPayment =
        (downPaymentFillEffect s).downPayment := by
  have hfill : (downPaymentFillEffect s).downPayment ≠ none := by
    unfold downPaymentFillEffect
    split_ifs with h
    · simp
    · exact h
  have hb := firstChainBranch_ne_down _ hfill
  refine ⟨hb, ?_⟩
  show getField (validateAndCalculate (downPaymentFillEffect s)) FocusTag.down =
    getField (downPaymentFillEffect s) FocusTag.down
  simp only [validateAndCalculate]
  split_ifs with h1 h2 h3
  · rfl
  · rfl
  · rw [getField_set_results_error, getField_down_applySecondChain,
      getField_set_calculated, getField_down_applyFirstChain _ hb]
  · rw [getField_set_results_error, getField_down_applySecondChain,
      getField_set_calculated, getField_down_applyFirstChain _ hb]

end InstallmentCalc
